import Mathlib

/-!
# PriceStockChecker: the product store, the price history and the pricing workflow

A shallow embedding of `server.js`: the two tables (`productos`,
`historico_precios`), the route handlers that write them
(`/producto/editar/:id`, `/producto/eliminar/:id`, `/buscar`,
`/producto/calcular-precio/:id`) and the prompt template, followed by the
properties of the specification that are about them.

Conventions of the embedding.

* A handler is a function from the database before the request to a `Resultado`:
  the database after it, the HTTP response, and the SQL statements it submitted,
  in order.
* Whether a storage call reports an error is an input of the handler (a `Bool`
  per call); a statement that fails leaves the database as it was.
* The route parameter `:id` is the integer it denotes under the INTEGER affinity
  of the column it is compared with.
* Library code the source calls but does not contain (Unicode normalisation and
  lower-casing, the printing of a number, SQLite's REAL affinity) is a parameter,
  `Plataforma`.
-/

set_option autoImplicit false

namespace PriceStockChecker

/-! ## Values -/

/-- A JavaScript number other than NaN, kept as the decimal literal that denotes it:
`decimal neg m e` stands for `(-1)^neg * m * 10^e` (rounded to a double by the
runtime), `infinito neg` for `±Infinity`. -/
inductive Numero where
  | infinito (neg : Bool)
  | decimal (neg : Bool) (mantisa : Nat) (exp : Int)
  deriving DecidableEq

/-- What a column of a row holds, as JavaScript reads it: `null`, a number or a string. -/
inductive Valor where
  | nulo
  | numero (x : Numero)
  | texto (s : String)
  deriving DecidableEq

/-! ## `String.prototype.trim` and `parseFloat` -/

/-- The code points `trim` removes: ECMAScript WhiteSpace (TAB, VT, FF, ZWNBSP and the
space separators) and LineTerminator (LF, CR, LS, PS). -/
def esEspacioJS (c : Char) : Bool :=
  let n := c.toNat
  n = 0x09 || n = 0x0A || n = 0x0B || n = 0x0C || n = 0x0D || n = 0x20 || n = 0xA0 ||
  n = 0x1680 || (0x2000 ≤ n && n ≤ 0x200A) || n = 0x2028 || n = 0x2029 || n = 0x202F ||
  n = 0x205F || n = 0x3000 || n = 0xFEFF

/-- Drop the leading white space. -/
def trimStart (cs : List Char) : List Char := cs.dropWhile esEspacioJS

/-- The method `trim` on the code points of a string. -/
def trimChars (cs : List Char) : List Char :=
  (trimStart (trimStart cs).reverse).reverse

/-- The method `trim` of a string: white space removed at both ends. -/
def trim (s : String) : String := ⟨trimChars s.toList⟩

/-- The value of a run of decimal digits. -/
def valorDigitos (ds : List Char) : Nat :=
  ds.foldl (fun n c => 10 * n + (c.toNat - 48)) 0

/-- An ExponentPart at the head of `cs`: an `e` or `E`, an optional sign and at least one
digit. The result is its value and what follows it; an `e` that no digit follows is not
part of the literal (value 0, nothing consumed). -/
def exponente (cs : List Char) : Int × List Char :=
  match cs with
  | [] => (0, cs)
  | c :: r =>
    if c = 'e' ∨ c = 'E' then
      let neg := r.head? = some '-'
      let t := if r.head? = some '-' ∨ r.head? = some '+' then r.tail else r
      let ds := t.takeWhile Char.isDigit
      if ds = [] then (0, cs)
      else (if neg then - (valorDigitos ds : Int) else (valorDigitos ds : Int),
            t.dropWhile Char.isDigit)
    else (0, cs)

/-- The longest prefix of `cs` that is a StrUnsignedDecimalLiteral other than `Infinity`
(`digits . digits? exp?`, `. digits exp?` or `digits exp?`), as mantissa, decimal
exponent and the text after the literal; `none` when no prefix is one. -/
def decimalSinSigno (cs : List Char) : Option (Nat × Int × List Char) :=
  let ent := cs.takeWhile Char.isDigit
  match cs.dropWhile Char.isDigit with
  | '.' :: r =>
    let frac := r.takeWhile Char.isDigit
    let ex := exponente (r.dropWhile Char.isDigit)
    if ent = [] ∧ frac = [] then none
    else some (valorDigitos (ent ++ frac), ex.1 - frac.length, ex.2)
  | resto =>
    if ent = [] then none
    else some (valorDigitos ent, (exponente resto).1, (exponente resto).2)

/-- The literal after its sign. -/
def literalSinSigno (neg : Bool) (cs : List Char) : Option Numero :=
  if "Infinity".toList.isPrefixOf cs then some (.infinito neg)
  else (decimalSinSigno cs).map fun me => .decimal neg me.1 me.2.1

/-- The function `parseFloat` on code points: leading white space is skipped, the longest
prefix that is a StrDecimalLiteral gives the number, what follows it is ignored. `none` is
NaN: no prefix is a literal. -/
def parseFloatChars (cs : List Char) : Option Numero :=
  match trimStart cs with
  | '+' :: r => literalSinSigno false r
  | '-' :: r => literalSinSigno true r
  | r => literalSinSigno false r

/-- The function `parseFloat`; `none` is NaN. -/
def parseFloat (s : String) : Option Numero := parseFloatChars s.toList

/-! ## The platform: library code the handlers call -/

/-- The canonical decomposition of a code point below U+0100 (UnicodeData, Latin-1
Supplement): a base letter and one combining mark, or the code point itself. -/
def descomponerLatin1 (c : Char) : List Char :=
  match c with
  | 'À' => ['A', '\u0300']
  | 'Á' => ['A', '\u0301']
  | 'Â' => ['A', '\u0302']
  | 'Ã' => ['A', '\u0303']
  | 'Ä' => ['A', '\u0308']
  | 'Å' => ['A', '\u030A']
  | 'Ç' => ['C', '\u0327']
  | 'È' => ['E', '\u0300']
  | 'É' => ['E', '\u0301']
  | 'Ê' => ['E', '\u0302']
  | 'Ë' => ['E', '\u0308']
  | 'Ì' => ['I', '\u0300']
  | 'Í' => ['I', '\u0301']
  | 'Î' => ['I', '\u0302']
  | 'Ï' => ['I', '\u0308']
  | 'Ñ' => ['N', '\u0303']
  | 'Ò' => ['O', '\u0300']
  | 'Ó' => ['O', '\u0301']
  | 'Ô' => ['O', '\u0302']
  | 'Õ' => ['O', '\u0303']
  | 'Ö' => ['O', '\u0308']
  | 'Ù' => ['U', '\u0300']
  | 'Ú' => ['U', '\u0301']
  | 'Û' => ['U', '\u0302']
  | 'Ü' => ['U', '\u0308']
  | 'Ý' => ['Y', '\u0301']
  | 'à' => ['a', '\u0300']
  | 'á' => ['a', '\u0301']
  | 'â' => ['a', '\u0302']
  | 'ã' => ['a', '\u0303']
  | 'ä' => ['a', '\u0308']
  | 'å' => ['a', '\u030A']
  | 'ç' => ['c', '\u0327']
  | 'è' => ['e', '\u0300']
  | 'é' => ['e', '\u0301']
  | 'ê' => ['e', '\u0302']
  | 'ë' => ['e', '\u0308']
  | 'ì' => ['i', '\u0300']
  | 'í' => ['i', '\u0301']
  | 'î' => ['i', '\u0302']
  | 'ï' => ['i', '\u0308']
  | 'ñ' => ['n', '\u0303']
  | 'ò' => ['o', '\u0300']
  | 'ó' => ['o', '\u0301']
  | 'ô' => ['o', '\u0302']
  | 'õ' => ['o', '\u0303']
  | 'ö' => ['o', '\u0308']
  | 'ù' => ['u', '\u0300']
  | 'ú' => ['u', '\u0301']
  | 'û' => ['u', '\u0302']
  | 'ü' => ['u', '\u0308']
  | 'ý' => ['y', '\u0301']
  | 'ÿ' => ['y', '\u0308']
  | _ => [c]

/-- The length of a JavaScript string: its UTF-16 code units, two for a code point
above U+FFFF. -/
def length16 (s : String) : Nat :=
  (s.toList.map fun c => if c.toNat < 0x10000 then 1 else 2).sum

/-- The library functions the source calls and does not contain. The two laws are what
the properties below use of them: on code points below U+0100 NFD decomposes code point
by code point, and on ASCII `toLowerCase` lowers `A`..`Z` only. -/
structure Plataforma where
  /-- The method `normalize("NFD")` of a string. -/
  normalizeNFD : String → String
  /-- The method `toLowerCase` of a string. -/
  toLowerCase : String → String
  /-- The conversion of a number to a string in a template literal. -/
  numberToString : Numero → String
  /-- The value a REAL column keeps of a bound text: the number it spells, or the text. -/
  afinidadReal : String → Valor
  nfd_latin1 : ∀ s : String, (∀ c ∈ s.toList, c.toNat < 256) →
    normalizeNFD s = ⟨s.toList.flatMap descomponerLatin1⟩
  lower_ascii : ∀ s : String, (∀ c ∈ s.toList, c.toNat < 128) →
    toLowerCase s = ⟨s.toList.map Char.toLower⟩

/-! ## The tables -/

/-- A row of `productos`. `categoria` may be NULL (its CHECK accepts NULL and it has no
NOT NULL); `precio_compra` is NOT NULL; `foto`, `precio_actual`, `precio_sugerido` may
be NULL. -/
structure Producto where
  id : Nat
  categoria : Option String
  nombre : String
  marca : String
  precio_compra : Valor
  precio_actual : Valor
  calidad : String
  urgencia : String
  foto : Option String
  precio_sugerido : Valor
  deriving DecidableEq

/-- A row of `historico_precios`; `fecha` is CURRENT_TIMESTAMP at the insertion. -/
structure Historico where
  id : Nat
  producto_id : Nat
  fecha : Nat
  precio_actual : Valor
  precio_sugerido : Valor
  deriving DecidableEq

/-- The database: the rows of the two tables in rowid order and the AUTOINCREMENT
counter of `historico_precios` (the largest id it ever gave). -/
structure BD where
  productos : List Producto
  historico_precios : List Historico
  secuencia_historico : Nat
  deriving DecidableEq

/-- The SQL statements of the handlers, with their bound parameters. -/
inductive Sentencia where
  | selectProducto (id : Nat)
  | selectHistorico (id : Nat)
  | selectFoto (id : Nat)
  | updateProducto (id : Nat)
  | deleteHistorico (id : Nat)
  | deleteProducto (id : Nat)
  | selectBusqueda (normalizado : String)
  | insertHistorico (producto_id : Nat) (precio_actual : Valor) (precio_sugerido : Numero)
  | updatePrecioSugerido (precio_sugerido : Numero) (id : Nat)
  deriving DecidableEq

/-- What a handler answers. `typeError` is the exception of reading a property of
`undefined`, thrown in a database callback where nothing catches it. -/
inductive Respuesta where
  | redirect (url : String)
  | send (status : Nat) (cuerpo : String)
  | jsonError (status : Nat) (error : String)
  | json (productos : List Producto)
  | render (vista : String) (producto : Producto) (historico : Option (List Historico))
  | typeError
  deriving DecidableEq

/-- The outcome of a request. -/
structure Resultado where
  bd : BD
  respuesta : Respuesta
  sentencias : List Sentencia
  deriving DecidableEq

/-! ## Queries -/

/-- The query `SELECT * FROM productos WHERE id = ?` through `db.get`: the first row. -/
def obtener (bd : BD) (id : Nat) : Option Producto :=
  bd.productos.find? fun p => p.id = id

/-- The query `SELECT * FROM historico_precios WHERE producto_id = ? ORDER BY fecha DESC`. -/
def listarHistorico (bd : BD) (id : Nat) : List Historico :=
  (bd.historico_precios.filter fun h => h.producto_id = id).insertionSort
    fun a b => b.fecha ≤ a.fecha

/-- The handler of `GET /producto/:id`: the product and its history, or 404. An error of
the history query is not looked at: the view then gets no history. -/
def verProducto (errProducto errHistorico : Bool) (bd : BD) (id : Nat) : Resultado :=
  match (if errProducto then none else obtener bd id) with
  | none => ⟨bd, .send 404 "Producto no encontrado", [.selectProducto id]⟩
  | some producto =>
    ⟨bd, .render "producto" producto
        (if errHistorico then none else some (listarHistorico bd id)),
      [.selectProducto id, .selectHistorico id]⟩

/-! ## `POST /producto/editar/:id` -/

/-- The fields of the edit form in `req.body`: each a string, or absent. -/
structure Formulario where
  nombre : Option String
  marca : Option String
  precio_compra : Option String
  precio_actual : Option String
  calidad : Option String
  urgencia : Option String
  categoria : Option String
  deriving DecidableEq

/-- The row the UPDATE of the edit form writes over `anterior`, when the constraints of
`productos` accept it: `nombre`, `marca`, `precio_compra`, `calidad`, `urgencia` NOT NULL,
`calidad`, `urgencia` and a non-NULL `categoria` within their CHECK lists. An absent field
is bound as NULL; `precio_actual || null` makes an empty price NULL. -/
def filaEditada (P : Plataforma) (body : Formulario) (nuevaFoto : Option String)
    (anterior : Producto) : Option Producto :=
  match body.nombre, body.marca, body.precio_compra, body.calidad, body.urgencia with
  | some nombre, some marca, some precio_compra, some calidad, some urgencia =>
    if (body.categoria = none ∨ body.categoria ∈
          [some "Fruta/Verdura", some "Bebida", some "Alimento", some "Otros"]) ∧
        calidad ∈ ["alta", "media", "baja"] ∧ urgencia ∈ ["muy alta", "media", "baja"] then
      some { id := anterior.id
             categoria := body.categoria
             nombre := nombre
             marca := marca
             precio_compra := P.afinidadReal precio_compra
             precio_actual :=
               match body.precio_actual with
               | none => .nulo
               | some t => if t = "" then .nulo else P.afinidadReal t
             calidad := calidad
             urgencia := urgencia
             foto := nuevaFoto
             precio_sugerido := anterior.precio_sugerido }
    else none
  | _, _, _, _, _ => none

/-- The statement `UPDATE productos SET categoria = ?, ... , foto = ? WHERE id = ?`: every
row with the id is rewritten; `none` when a rewritten row breaks a constraint (the
statement then changes nothing). -/
def actualizarFilas (P : Plataforma) (body : Formulario) (nuevaFoto : Option String)
    (id : Nat) : List Producto → Option (List Producto)
  | [] => some []
  | p :: ps =>
    if p.id = id then
      match filaEditada P body nuevaFoto p, actualizarFilas P body nuevaFoto id ps with
      | some q, some qs => some (q :: qs)
      | _, _ => none
    else (actualizarFilas P body nuevaFoto id ps).map fun qs => p :: qs

/-- The handler of `POST /producto/editar/:id`. `file` is the name multer gave the
uploaded photo, when one was uploaded. The row read for its photo is not checked for
existence: without an upload, `row.foto` of a missing row throws. -/
def editarProducto (P : Plataforma) (errSelect errUpdate : Bool) (bd : BD) (id : Nat)
    (body : Formulario) (file : Option String) : Resultado :=
  if errSelect then ⟨bd, .send 500 "Error al obtener producto", [.selectFoto id]⟩
  else
    let row := obtener bd id
    let nuevaFoto : Option (Option String) :=
      match file, row with
      | some filename, _ => some (some ("/uploads/" ++ filename))
      | none, some r => some r.foto
      | none, none => none
    match nuevaFoto with
    | none => ⟨bd, .typeError, [.selectFoto id]⟩
    | some foto =>
      match (if errUpdate then none else actualizarFilas P body foto id bd.productos) with
      | none =>
        ⟨bd, .send 500 "Error al actualizar producto.", [.selectFoto id, .updateProducto id]⟩
      | some filas =>
        ⟨{ bd with productos := filas }, .redirect ("/producto/" ++ toString id),
          [.selectFoto id, .updateProducto id]⟩

/-! ## `POST /producto/eliminar/:id` -/

/-- The handler of `POST /producto/eliminar/:id`: the history of the product is deleted,
then the product; an error of the first statement ends the request. -/
def eliminarProducto (errHistorico errProducto : Bool) (bd : BD) (id : Nat) : Resultado :=
  if errHistorico then
    ⟨bd, .redirect "/?error=Error al eliminar histórico de precios", [.deleteHistorico id]⟩
  else
    let bd1 : BD :=
      { bd with historico_precios := bd.historico_precios.filter fun h => ¬ h.producto_id = id }
    if errProducto then
      ⟨bd1, .redirect "/?error=Error al eliminar producto",
        [.deleteHistorico id, .deleteProducto id]⟩
    else
      ⟨{ bd1 with productos := bd1.productos.filter fun p => ¬ p.id = id },
        .redirect "/?success=Producto eliminado correctamente",
        [.deleteHistorico id, .deleteProducto id]⟩

/-! ## `GET /buscar` -/

/-- The replacement `replace(/[\u0300-\u036f]/g, "")`: the combining diacritical marks
are removed. -/
def quitarMarcas (s : String) : String :=
  ⟨s.toList.filter fun c => ¬ (0x300 ≤ c.toNat ∧ c.toNat ≤ 0x36F)⟩

/-- The search term as the handler normalises it:
`termino.normalize("NFD").replace(/[\u0300-\u036f]/g, "").toLowerCase()`. -/
def normalizar (P : Plataforma) (termino : String) : String :=
  P.toLowerCase (quitarMarcas (P.normalizeNFD termino))

/-- The SQL function `REPLACE(X, a, b)` for one-character `a` and `b`. -/
def replaceSQL (a b : Char) (cs : List Char) : List Char :=
  cs.map fun c => if c = a then b else c

/-- The expression `LOWER(REPLACE(REPLACE(REPLACE(nombre, 'á', 'a'), 'é', 'e'), 'í', 'i'))`
of the search query; SQLite's `LOWER` lowers ASCII letters only. -/
def nombrePlegado (nombre : String) : List Char :=
  (replaceSQL 'í' 'i' (replaceSQL 'é' 'e' (replaceSQL 'á' 'a' nombre.toList))).map Char.toLower

/-- Two characters that `LIKE` takes for equal: the same, or ASCII letters that differ
in case only. -/
def igualLike (c d : Char) : Bool :=
  c = d || (c.toNat < 128 && d.toNat < 128 && c.toLower = d.toLower)

/-- A text as `LIKE` reads it, a C string: the characters before the first U+0000. -/
def cadenaC (cs : List Char) : List Char :=
  cs.takeWhile fun c => c ≠ Char.ofNat 0

/-- The comparison `patternCompare` of SQLite's `LIKE` without ESCAPE, on the characters
it reads of the pattern and of the text: `%` matches any run of characters, `_` any one
character, any other character itself up to ASCII case. -/
def patternCompare : (patron : List Char) → (cadena : List Char) → Bool
  | [], s => s.isEmpty
  | c :: p, s =>
    if c = '%' then s.tails.any fun t => patternCompare p t
    else
      match s with
      | [] => false
      | d :: t => (c = '_' || igualLike c d) && patternCompare p t

/-- The operator `cadena LIKE patron` of SQLite: the pattern and the text are each read as
a C string, up to their first U+0000, and compared by `patternCompare`. -/
def like (patron cadena : List Char) : Bool :=
  patternCompare (cadenaC patron) (cadenaC cadena)

/-- The order of two texts under the BINARY collation: by code point, a prefix first. -/
def ordenBinario : List Char → List Char → Bool
  | [], _ => true
  | _ :: _, [] => false
  | c :: a, d :: b => c.toNat < d.toNat || (c = d && ordenBinario a b)

/-- The rows of the search query for a normalised term:
`WHERE LOWER(REPLACE(...nombre...)) LIKE ? || '%' ORDER BY nombre`. -/
def filasBusqueda (bd : BD) (normalizado : String) : List Producto :=
  (bd.productos.filter fun p => like (normalizado.toList ++ ['%']) (nombrePlegado p.nombre)
    ).insertionSort fun a b => ordenBinario a.nombre.toList b.nombre.toList = true

/-- The handler of `GET /buscar`; `q` is `req.query.q`, a string or absent. The guard is
`!termino || termino.length < 2`, on the term as received. -/
def buscar (P : Plataforma) (errDb : Bool) (bd : BD) (q : Option String) : Resultado :=
  match q with
  | none => ⟨bd, .jsonError 400 "Término de búsqueda demasiado corto", []⟩
  | some termino =>
    if termino = "" ∨ length16 termino < 2 then
      ⟨bd, .jsonError 400 "Término de búsqueda demasiado corto", []⟩
    else
      let normalizado := normalizar P termino
      if errDb then
        ⟨bd, .jsonError 500 "Error en el servidor", [.selectBusqueda normalizado]⟩
      else ⟨bd, .json (filasBusqueda bd normalizado), [.selectBusqueda normalizado]⟩

/-! ## `POST /producto/calcular-precio/:id` -/

/-- The rule text of the prompt for a category. -/
def instrucciones (categoria : Option String) : String :=
  if categoria = some "Fruta/Verdura" then
    "\n**INSTRUCCIONES PARA FRUTA/VERDURA:**\n1. Siempre calcula el precio POR KILO (no por unidad)\n2. Margen base:45%-75% sobre precio compra\n3. Si es temporada alta: reduce 5-10%\n4. Si está cerca de caducar (urgencia alta): reduce 10-15%\n5. Calidad alta: añade 5-8%"
  else if categoria = some "Bebida" then
    "\n**INSTRUCCIONES PARA BEBIDAS:**\n1. Precio POR UNIDAD (excepto especificar que son packs)\n2. Margen base: 20-40%\n4. Aguas minerales: margen 150-300% (Basate en reputacion de la marca)\n5. Marcas blancas: margen 20-40%\n6. Refrescos: margen 25-50%"
  else if categoria = some "Alimento" then
    "\n**INSTRUCCIONES PARA ALIMENTOS:**\n1. Perecederos: margen 25-75%\n2. No perecederos: margen 50-150%\n3. Urgencia alta: reduce 5-10%\n4. Calidad premium: añade 5-10%\n5. Productos locales: añade 5-8%"
  else
    "\n**INSTRUCCIONES PARA OTROS PRODUCTOS:**\n1. Margen base: 25-50% (Muy Flexible bajo cirterio de la IA)\n2. Productos exclusivos: +10-20%\n3. Competencia directa: iguala o reduce 2-5%"

/-- A value substituted in a template literal. -/
def aTexto (P : Plataforma) : Valor → String
  | .nulo => "null"
  | .numero x => P.numberToString x
  | .texto s => s

/-- The prompt up to the header of the additional factors: the introduction, the rules of
the category and the data of the product. -/
def datosDelProducto (P : Plataforma) (producto : Producto) : String :=
  "\nEres un experto en precios para comercios minoristas en Catalunya. Calcula el precio de venta óptimo para este producto siguiendo estas reglas específicas:\n\n" ++
  instrucciones producto.categoria ++ "\n\n**DATOS DEL PRODUCTO:**\n" ++
  "- Nombre: " ++ producto.nombre ++ "\n" ++
  "- Marca: " ++ producto.marca ++ "\n" ++
  "- Categoría: " ++ (producto.categoria.getD "null") ++ "\n" ++
  "- Precio compra: " ++ aTexto P producto.precio_compra ++ "€\n" ++
  "- Calidad: " ++ producto.calidad ++ "\n" ++
  "- Urgencia: " ++ producto.urgencia ++ "\n\n"

/-- The header of the additional factors. -/
def cabeceraFactores : String := "**FACTORES ADICIONALES A CONSIDERAR:**"

/-- The line of the urgency discount. -/
def lineaUrgencia : String := "- APLICAR DESCUENTO por urgencia (5-10%)"

/-- The line of the quality surcharge. -/
def lineaCalidadAlta : String := "- AÑADIR RECARGO por calidad (2-5%)"

/-- The line of the reduction for a low quality. -/
def lineaCalidadBaja : String := "- REDUCIR MARGEN por calidad inferior (5-10%)"

/-- The prompt after the header of the additional factors: the two conditional lines, the
required format and the closing line. -/
def factoresAdicionales (producto : Producto) : String :=
  "\n" ++ (if producto.urgencia = "muy alta" then lineaUrgencia else "") ++ "\n" ++
  (if producto.calidad = "alta" then lineaCalidadAlta
   else if producto.calidad = "baja" then lineaCalidadBaja else "") ++
  "\n\n**FORMATO REQUERIDO:**\nMAXIMA IMPORTANCIA Devuelve SOLAMENTE el número con 2 decimales. Ejemplo: 2.75 NADA DE ANALISIS NI FORMA DE PENSAR SOLO NUMERO DE DOS DECIMALES SIN TEXTO AÑADIDO \n\n**PRECIO SUGERIDO CALCULADO:**"

/-- The template literal `prompt` of the handler. -/
def prompt (P : Plataforma) (producto : Producto) : String :=
  datosDelProducto P producto ++ cabeceraFactores ++ factoresAdicionales producto

/-- What the request to the completion service gives: `error` when `axios.post` throws or
the reply has no text at `choices[0].message.content` (both end in the `catch`), else
that text. -/
inductive RespuestaIA where
  | error
  | contenido (texto : String)
  deriving DecidableEq

/-- The id an AUTOINCREMENT insertion gives: one more than the largest id the table has or
ever gave. -/
def siguienteId (bd : BD) : Nat :=
  (bd.historico_precios.map fun h => h.id).foldl max bd.secuencia_historico + 1

/-- The statement `INSERT INTO historico_precios (producto_id, precio_actual,
precio_sugerido) VALUES (?, ?, ?)` at the time `ahora`. -/
def insertarHistorico (ahora : Nat) (bd : BD) (producto_id : Nat) (precio_actual : Valor)
    (precio_sugerido : Numero) : BD :=
  { bd with
    historico_precios := bd.historico_precios ++
      [⟨siguienteId bd, producto_id, ahora, precio_actual, .numero precio_sugerido⟩]
    secuencia_historico := siguienteId bd }

/-- The statement `UPDATE productos SET precio_sugerido = ? WHERE id = ?`. -/
def actualizarPrecioSugerido (bd : BD) (precio_sugerido : Numero) (id : Nat) : BD :=
  { bd with
    productos := bd.productos.map fun p =>
      if p.id = id then { p with precio_sugerido := .numero precio_sugerido } else p }

/-- The handler of `POST /producto/calcular-precio/:id`. `oraculo` is the completion
service, from the prompt to its reply; `ahora` the time of the insertion. An error of the
INSERT is logged and the UPDATE runs all the same. -/
def calcularPrecio (P : Plataforma) (oraculo : String → RespuestaIA) (ahora : Nat)
    (errSelect errInsert errUpdate : Bool) (bd : BD) (id : Nat) : Resultado :=
  match (if errSelect then none else obtener bd id) with
  | none => ⟨bd, .send 400 "Producto no encontrado.", [.selectProducto id]⟩
  | some producto =>
    match oraculo (prompt P producto) with
    | .error => ⟨bd, .send 500 "Error al calcular precio", [.selectProducto id]⟩
    | .contenido content =>
      let result := trim content
      match parseFloat result with
      | some precio_sugerido =>
        let bd1 :=
          if errInsert then bd
          else insertarHistorico ahora bd id producto.precio_actual precio_sugerido
        let sentencias := [.selectProducto id,
          .insertHistorico id producto.precio_actual precio_sugerido,
          .updatePrecioSugerido precio_sugerido id]
        if errUpdate then ⟨bd1, .send 500 "Error al actualizar", sentencias⟩
        else
          ⟨actualizarPrecioSugerido bd1 precio_sugerido id,
            .redirect ("/producto/" ++ toString id), sentencias⟩
      | none =>
        ⟨bd, .send 400 ("La IA devolvió un formato inválido: " ++ result),
          [.selectProducto id]⟩

/-! ## A platform -/

/-- The conversion of a number to a string on the digits of its literal: the digits
without trailing zeros, in positional form for a decimal exponent from -6 to 21 and in
exponential form outside. -/
def numeroATexto : Numero → String
  | .infinito neg => if neg then "-Infinity" else "Infinity"
  | .decimal neg m e =>
    if m = 0 then "0"
    else
      let todos := Nat.toDigits 10 m
      let ds := (todos.reverse.dropWhile fun c => c = '0').reverse
      let k : Int := ds.length
      let n : Int := e + todos.length
      let cuerpo : List Char :=
        if k ≤ n ∧ n ≤ 21 then ds ++ List.replicate (n - k).toNat '0'
        else if 0 < n ∧ n ≤ 21 then ds.take n.toNat ++ '.' :: ds.drop n.toNat
        else if -6 < n ∧ n ≤ 0 then '0' :: '.' :: List.replicate (-n).toNat '0' ++ ds
        else
          let ex := (if 0 ≤ n - 1 then '+' else '-') :: Nat.toDigits 10 (n - 1).natAbs
          if ds.length = 1 then ds ++ 'e' :: ex
          else ds.take 1 ++ '.' :: ds.drop 1 ++ 'e' :: ex
      ⟨if neg then '-' :: cuerpo else cuerpo⟩

/-- The white space SQLite skips around a number. -/
def esEspacioSQL (c : Char) : Bool :=
  let n := c.toNat
  n = 0x20 || n = 0x09 || n = 0x0A || n = 0x0B || n = 0x0C || n = 0x0D

/-- The REAL affinity on a bound text: a text that is a number, white space around it
allowed, becomes the number; any other text stays. -/
def afinidadRealSQLite (s : String) : Valor :=
  let cs := s.toList.dropWhile esEspacioSQL
  let neg := cs.head? = some '-'
  let r := if cs.head? = some '-' ∨ cs.head? = some '+' then cs.tail else cs
  match decimalSinSigno r with
  | some (m, e, resto) => if resto.all esEspacioSQL then .numero (.decimal neg m e) else .texto s
  | none => .texto s

/-- A platform: the two string functions code point by code point (exact below U+0100
for NFD, on ASCII for `toLowerCase`), with the conversions above. -/
def plataformaLatin1 : Plataforma where
  normalizeNFD s := ⟨s.toList.flatMap descomponerLatin1⟩
  toLowerCase s := ⟨s.toList.map Char.toLower⟩
  numberToString := numeroATexto
  afinidadReal := afinidadRealSQLite
  nfd_latin1 _ _ := rfl
  lower_ascii _ _ := rfl

/-! ## The accepted replies, in the words of the grammar -/

/-- A text that begins with an unsigned decimal literal: a digit, or a point and a digit. -/
def empiezaPorDecimal : List Char → Bool
  | '.' :: d :: _ => d.isDigit
  | d :: _ => d.isDigit
  | [] => false

/-- A text that begins with a StrDecimalLiteral: after an optional sign, `Infinity`, a
digit, or a point and a digit. -/
def empiezaPorLiteral (cs : List Char) : Bool :=
  let r := if cs.head? = some '+' ∨ cs.head? = some '-' then cs.tail else cs
  "Infinity".toList.isPrefixOf r || empiezaPorDecimal r

/-- A text that is a StrDecimalLiteral from its first to its last character: after an
optional sign, `Infinity` or a decimal literal that nothing follows. -/
def esLiteralCompleto (cs : List Char) : Bool :=
  let r := if cs.head? = some '+' ∨ cs.head? = some '-' then cs.tail else cs
  r = "Infinity".toList ||
  match decimalSinSigno r with
  | some (_, _, resto) => resto.isEmpty
  | none => false

/-! ## The search, in the words of the specification -/

/-- A text written with ASCII characters and `á`, `é`, `í` only: the texts on which the
folding of the query and the normalisation of the term are meant to agree. -/
def nombreSimple (s : String) : Bool :=
  s.toList.all fun c => c.toNat < 128 || c = 'á' || c = 'é' || c = 'í'

/-- A name that starts with a term, character by character, with the equality of
characters `LIKE` uses (ASCII letters without regard to case). -/
def empiezaPor : (termino : List Char) → (nombre : List Char) → Bool
  | [], _ => true
  | _ :: _, [] => false
  | c :: p, d :: t => igualLike c d && empiezaPor p t

/-! ## Concrete stores -/

/-- The product of the end-to-end example of the specification. -/
def cola : Producto :=
  { id := 1, categoria := some "Bebida", nombre := "Cola", marca := "Acme"
    precio_compra := .numero (.decimal false 100 (-2)), precio_actual := .nulo
    calidad := "media", urgencia := "baja", foto := none, precio_sugerido := .nulo }

/-- A store with that product and no history. -/
def bdCola : BD := ⟨[cola], [], 0⟩

/-- A product whose name has a lower-case accented vowel. -/
def cafe : Producto :=
  { id := 3, categoria := some "Alimento", nombre := "Café molido", marca := "Acme"
    precio_compra := .numero (.decimal false 250 (-2)), precio_actual := .nulo
    calidad := "media", urgencia := "baja", foto := none, precio_sugerido := .nulo }

/-- A product whose name is written with an upper-case accented vowel. -/
def oleo : Producto :=
  { id := 2, categoria := some "Alimento", nombre := "Óleo", marca := "Acme"
    precio_compra := .numero (.decimal false 300 (-2)), precio_actual := .nulo
    calidad := "alta", urgencia := "baja", foto := none, precio_sugerido := .nulo }

/-! ## Lemmas on the store -/

theorem find_map_mismo (f : Producto → Producto) (hf : ∀ p, (f p).id = p.id) (id : Nat)
    (ps : List Producto) :
    (ps.map fun p => if p.id = id then f p else p).find? (fun p => p.id = id) =
      (ps.find? fun p => p.id = id).map f := by
  induction ps with
  | nil => rfl
  | cons p ps ih =>
    rw [List.map_cons, List.find?_cons, List.find?_cons, ih]
    by_cases h : p.id = id
    · have h2 : (f p).id = id := (hf p).trans h
      rw [if_pos h]
      simp only [h, h2, decide_True, Option.map_some']
    · rw [if_neg h]
      simp only [h, decide_False]

theorem find_map_otro (f : Producto → Producto) (hf : ∀ p, (f p).id = p.id) (id j : Nat)
    (hj : j ≠ id) (ps : List Producto) :
    (ps.map fun p => if p.id = id then f p else p).find? (fun p => p.id = j) =
      ps.find? fun p => p.id = j := by
  induction ps with
  | nil => rfl
  | cons p ps ih =>
    rw [List.map_cons, List.find?_cons, List.find?_cons, ih]
    by_cases h : p.id = id
    · have h2 : ¬ p.id = j := fun e => hj (e.symm.trans h)
      have h3 : ¬ (f p).id = j := fun e => h2 ((hf p).symm.trans e)
      rw [if_pos h]
      simp only [h2, h3, decide_False]
    · rw [if_neg h]

theorem obtener_id (bd : BD) (id : Nat) (p : Producto) (h : obtener bd id = some p) :
    p.id = id := by
  have := List.find?_some h
  simpa using this

theorem obtener_actualizarPrecioSugerido (bd : BD) (v : Numero) (id : Nat) :
    obtener (actualizarPrecioSugerido bd v id) id =
      (obtener bd id).map fun p => { p with precio_sugerido := Valor.numero v } :=
  find_map_mismo (fun p => { p with precio_sugerido := Valor.numero v }) (fun _ => rfl) id
    bd.productos

theorem obtener_actualizarPrecioSugerido_otro (bd : BD) (v : Numero) (id j : Nat) (hj : j ≠ id) :
    obtener (actualizarPrecioSugerido bd v id) j = obtener bd j :=
  find_map_otro (fun p => { p with precio_sugerido := Valor.numero v }) (fun _ => rfl) id j hj
    bd.productos

/-! ## C1, C2, C3: the pricing workflow -/

/-- C1. When product `id` is stored, the reply of the oracle parses to the number `v` and
both writes succeed, the request ends in the redirect to the product; afterwards product
`id` has `precio_sugerido = v` and every other field as before, every other product is as
before, and the history is the old history followed by one entry: product `id`, the
`precio_actual` the product had, the suggestion `v`. -/
theorem calcularPrecio_guarda_sugerencia (P : Plataforma) (oraculo : String → RespuestaIA)
    (ahora : Nat) (bd : BD) (id : Nat) (producto : Producto) (content : String) (v : Numero)
    (hprod : obtener bd id = some producto)
    (hia : oraculo (prompt P producto) = .contenido content)
    (hnum : parseFloat (trim content) = some v) :
    (calcularPrecio P oraculo ahora false false false bd id).respuesta
        = .redirect ("/producto/" ++ toString id) ∧
    obtener (calcularPrecio P oraculo ahora false false false bd id).bd id
        = some { producto with precio_sugerido := .numero v } ∧
    (∀ j, j ≠ id →
      obtener (calcularPrecio P oraculo ahora false false false bd id).bd j = obtener bd j) ∧
    ((calcularPrecio P oraculo ahora false false false bd id).bd.productos.map fun p => p.id)
        = (bd.productos.map fun p => p.id) ∧
    (calcularPrecio P oraculo ahora false false false bd id).bd.historico_precios
        = bd.historico_precios ++
          [{ id := siguienteId bd, producto_id := id, fecha := ahora
             precio_actual := producto.precio_actual, precio_sugerido := .numero v }] := by
  have hr : calcularPrecio P oraculo ahora false false false bd id =
      ⟨actualizarPrecioSugerido
          (insertarHistorico ahora bd id producto.precio_actual v) v id,
        .redirect ("/producto/" ++ toString id),
        [.selectProducto id, .insertHistorico id producto.precio_actual v,
          .updatePrecioSugerido v id]⟩ := by
    simp [calcularPrecio, hprod, hia, hnum]
  rw [hr]
  refine ⟨rfl, ?_, ?_, ?_, rfl⟩
  · rw [obtener_actualizarPrecioSugerido]
    show Option.map _ (obtener bd id) = _
    rw [hprod]; rfl
  · intro j hj
    rw [obtener_actualizarPrecioSugerido_otro _ _ _ _ hj]; rfl
  · show List.map _ (List.map _ bd.productos) = _
    rw [List.map_map]
    apply List.map_congr_left
    intro p _
    by_cases h : p.id = id <;> simp [h]

/-- C1 at the end-to-end example of the specification: the store holds Cola, the oracle
replies "1.45". -/
theorem calcularPrecio_guarda_sugerencia_ejemplo :
    obtener (calcularPrecio plataformaLatin1 (fun _ => .contenido "1.45") 7
        false false false bdCola 1).bd 1
      = some { cola with precio_sugerido := .numero (.decimal false 145 (-2)) } ∧
    (calcularPrecio plataformaLatin1 (fun _ => .contenido "1.45") 7
        false false false bdCola 1).bd.historico_precios
      = [⟨1, 1, 7, .nulo, .numero (.decimal false 145 (-2))⟩] :=
  have h := calcularPrecio_guarda_sugerencia plataformaLatin1 (fun _ => .contenido "1.45") 7
    bdCola 1 cola "1.45" (.decimal false 145 (-2)) (by decide) rfl (by decide)
  ⟨h.2.1, h.2.2.2.2⟩

/-- C2, at the failing input: the store holds Cola, the oracle replies "3.50", the INSERT
into `historico_precios` fails. The UPDATE runs all the same: the history is as before,
the product has the new `precio_sugerido`, and the request ends in the redirect. -/
theorem calcularPrecio_insert_fallido :
    calcularPrecio plataformaLatin1 (fun _ => .contenido "3.50") 7 false true false bdCola 1
      = ⟨⟨[{ cola with precio_sugerido := .numero (.decimal false 350 (-2)) }], [], 0⟩,
         .redirect "/producto/1",
         [.selectProducto 1, .insertHistorico 1 .nulo (.decimal false 350 (-2)),
          .updatePrecioSugerido (.decimal false 350 (-2)) 1]⟩ := by
  decide

/-- C3. When the text the oracle replies does not parse as a number, the request leaves
the database as it was, whatever the id; and for a stored product it ends in the 400
response that carries the trimmed text of the reply, after the one SELECT. -/
theorem calcularPrecio_respuesta_no_numerica (P : Plataforma) (oraculo : String → RespuestaIA)
    (ahora : Nat) (errSelect errInsert errUpdate : Bool) (bd : BD) (id : Nat) (content : String)
    (hia : ∀ producto, obtener bd id = some producto →
      oraculo (prompt P producto) = .contenido content)
    (hnan : parseFloat (trim content) = none) :
    (calcularPrecio P oraculo ahora errSelect errInsert errUpdate bd id).bd = bd ∧
    ((∃ producto, obtener bd id = some producto) →
      calcularPrecio P oraculo ahora false errInsert errUpdate bd id =
        ⟨bd, .send 400 ("La IA devolvió un formato inválido: " ++ trim content),
          [.selectProducto id]⟩) := by
  constructor
  · cases errSelect
    · cases hp : obtener bd id with
      | none => simp [calcularPrecio, hp]
      | some producto => simp [calcularPrecio, hp, hia producto hp, hnan]
    · simp [calcularPrecio]
  · rintro ⟨producto, hp⟩
    simp [calcularPrecio, hp, hia producto hp, hnan]

/-- C3 at the example of the specification: the store holds Cola, the oracle replies
"not a number". -/
theorem calcularPrecio_respuesta_no_numerica_ejemplo :
    calcularPrecio plataformaLatin1 (fun _ => .contenido "not a number") 7
        false false false bdCola 1
      = ⟨bdCola, .send 400 "La IA devolvió un formato inválido: not a number",
          [.selectProducto 1]⟩ :=
  (calcularPrecio_respuesta_no_numerica plataformaLatin1 (fun _ => .contenido "not a number") 7
    false false false bdCola 1 "not a number" (fun _ _ => rfl) (by decide)).2 ⟨cola, by decide⟩

/-! ## C4: what the reply parser accepts -/

theorem decimalSinSigno_eq_none (cs : List Char) :
    decimalSinSigno cs = none ↔ empiezaPorDecimal cs = false := by
  cases cs with
  | nil => simp [decimalSinSigno, empiezaPorDecimal]
  | cons c t =>
    by_cases hd : c.isDigit = true
    · have hc : c ≠ '.' := by rintro rfl; exact absurd hd (by decide)
      have h1 : empiezaPorDecimal (c :: t) = true := by
        unfold empiezaPorDecimal
        split
        · next h => cases h; exact absurd rfl hc
        · next h => cases h; exact hd
        · next h => cases h
      have h2 : decimalSinSigno (c :: t) ≠ none := by
        unfold decimalSinSigno
        simp only [List.takeWhile_cons, hd, if_true]
        split <;> simp
      simp [h1, h2]
    · have hd2 : c.isDigit = false := by simpa using hd
      by_cases hc : c = '.'
      · subst hc
        cases t with
        | nil => simp [decimalSinSigno, empiezaPorDecimal]
        | cons d u =>
          by_cases he : d.isDigit = true
          · simp [decimalSinSigno, empiezaPorDecimal, List.takeWhile_cons, List.dropWhile_cons, he]
          · have he2 : d.isDigit = false := by simpa using he
            simp [decimalSinSigno, empiezaPorDecimal, List.takeWhile_cons, List.dropWhile_cons, he2]
      · have h1 : empiezaPorDecimal (c :: t) = false := by
          unfold empiezaPorDecimal
          split
          · next h => cases h; exact absurd rfl hc
          · next h => cases h; exact hd2
          · next h => cases h
        have h2 : decimalSinSigno (c :: t) = none := by
          unfold decimalSinSigno
          simp only [List.takeWhile_cons, List.dropWhile_cons, hd2]
          split
          · next h => cases h; exact absurd rfl hc
          · simp
        simp [h1, h2]

theorem literalSinSigno_eq_none (neg : Bool) (r : List Char) :
    literalSinSigno neg r = none ↔
      ("Infinity".toList.isPrefixOf r || empiezaPorDecimal r) = false := by
  unfold literalSinSigno
  cases h : "Infinity".toList.isPrefixOf r with
  | true => simp
  | false =>
    rw [if_neg (by simp), Bool.false_or, Option.map_eq_none', decimalSinSigno_eq_none]

theorem parseFloatChars_eq_none (cs : List Char) :
    parseFloatChars cs = none ↔ empiezaPorLiteral (trimStart cs) = false := by
  unfold parseFloatChars empiezaPorLiteral
  generalize trimStart cs = l
  cases l with
  | nil => exact literalSinSigno_eq_none false []
  | cons c t =>
    by_cases h1 : c = '+'
    · subst h1
      simpa using literalSinSigno_eq_none false t
    · by_cases h2 : c = '-'
      · subst h2
        simpa using literalSinSigno_eq_none true t
      · have e : (match c :: t with
            | '+' :: r => literalSinSigno false r
            | '-' :: r => literalSinSigno true r
            | r => literalSinSigno false r) = literalSinSigno false (c :: t) := by
          split
          · next h => cases h; exact absurd rfl h1
          · next h => cases h; exact absurd rfl h2
          · rfl
        rw [e]
        simpa [h1, h2] using literalSinSigno_eq_none false (c :: t)

theorem trimStart_trimChars (cs : List Char) : trimStart (trimChars cs) = trimChars cs := by
  unfold trimChars
  generalize hl : trimStart cs = l
  cases l with
  | nil => rfl
  | cons a t =>
    have ha : ¬ esEspacioJS a = true := by
      have := List.head?_dropWhile_not esEspacioJS cs
      unfold trimStart at hl
      rw [hl] at this
      simpa using this
    have hpre : List.rdropWhile esEspacioJS (a :: t) <+: a :: t :=
      List.rdropWhile_prefix esEspacioJS (a :: t)
    have hne : List.rdropWhile esEspacioJS (a :: t) ≠ [] := by
      intro h
      rw [List.rdropWhile_eq_nil_iff] at h
      exact ha (h a (List.mem_cons_self a t))
    have hrd : (trimStart (a :: t).reverse).reverse = List.rdropWhile esEspacioJS (a :: t) := rfl
    rw [hrd]
    cases hr : List.rdropWhile esEspacioJS (a :: t) with
    | nil => exact absurd hr hne
    | cons b u =>
      rw [hr] at hpre
      have hb : b = a := (List.cons_prefix_cons.1 hpre).1
      subst hb
      exact List.dropWhile_cons_of_neg ha

theorem parseFloat_trim_eq_none (content : String) :
    parseFloat (trim content) = none ↔ empiezaPorLiteral (trim content).toList = false := by
  unfold parseFloat
  rw [parseFloatChars_eq_none]
  show empiezaPorLiteral (trimStart (trimChars content.toList)) = false ↔ _
  rw [trimStart_trimChars]
  rfl

/-- C4, as the code has it. For a stored product, the request is refused as an invalid
suggestion, with nothing written, exactly when the trimmed reply does not begin with a
decimal literal (an optional sign, then `Infinity`, a digit, or a point and a digit). A
reply that begins with one is accepted whatever follows the literal: the INSERT and the
UPDATE are submitted with the number `parseFloat` reads at its head. -/
theorem calcularPrecio_acepta_literal_inicial (P : Plataforma) (oraculo : String → RespuestaIA)
    (ahora : Nat) (errInsert errUpdate : Bool) (bd : BD) (id : Nat) (producto : Producto)
    (content : String)
    (hprod : obtener bd id = some producto)
    (hia : oraculo (prompt P producto) = .contenido content) :
    (empiezaPorLiteral (trim content).toList = false →
      calcularPrecio P oraculo ahora false errInsert errUpdate bd id =
        ⟨bd, .send 400 ("La IA devolvió un formato inválido: " ++ trim content),
          [.selectProducto id]⟩) ∧
    (empiezaPorLiteral (trim content).toList = true →
      ∃ v, parseFloat (trim content) = some v ∧
        (calcularPrecio P oraculo ahora false errInsert errUpdate bd id).sentencias =
          [.selectProducto id, .insertHistorico id producto.precio_actual v,
            .updatePrecioSugerido v id] ∧
        (calcularPrecio P oraculo ahora false false false bd id).bd =
          actualizarPrecioSugerido
            (insertarHistorico ahora bd id producto.precio_actual v) v id) := by
  constructor
  · intro h
    have hnan := (parseFloat_trim_eq_none content).2 h
    simp [calcularPrecio, hprod, hia, hnan]
  · intro h
    cases hv : parseFloat (trim content) with
    | none =>
      rw [(parseFloat_trim_eq_none content).1 hv] at h
      exact absurd h (by decide)
    | some v =>
      refine ⟨v, rfl, ?_, ?_⟩
      · cases errUpdate <;> simp [calcularPrecio, hprod, hia, hv]
      · simp [calcularPrecio, hprod, hia, hv]

/-- C4 at a reply that is a bare number and at one that is no number: "3.50" is accepted
and stored, "precio: 3.50" is refused with nothing written. -/
theorem calcularPrecio_acepta_literal_inicial_ejemplo :
    (calcularPrecio plataformaLatin1 (fun _ => .contenido "precio: 3.50") 7
        false false false bdCola 1 =
      ⟨bdCola, .send 400 "La IA devolvió un formato inválido: precio: 3.50",
        [.selectProducto 1]⟩) ∧
    ∃ v, parseFloat (trim " 3.50\n") = some v ∧
      (calcularPrecio plataformaLatin1 (fun _ => .contenido " 3.50\n") 7
          false false false bdCola 1).sentencias =
        [.selectProducto 1, .insertHistorico 1 cola.precio_actual v,
          .updatePrecioSugerido v 1] ∧
      (calcularPrecio plataformaLatin1 (fun _ => .contenido " 3.50\n") 7
          false false false bdCola 1).bd =
        actualizarPrecioSugerido (insertarHistorico 7 bdCola 1 cola.precio_actual v) v 1 :=
  ⟨(calcularPrecio_acepta_literal_inicial plataformaLatin1
      (fun _ => .contenido "precio: 3.50") 7 false false bdCola 1 cola "precio: 3.50"
      (by decide) rfl).1 (by decide),
   (calcularPrecio_acepta_literal_inicial plataformaLatin1
      (fun _ => .contenido " 3.50\n") 7 false false bdCola 1 cola " 3.50\n"
      (by decide) rfl).2 (by decide)⟩

/-- C4 refuted as stated: the replies "2.75 euros" and "3.50 because the margin is 40%" are
not decimal literals from end to end, yet each is accepted: the request ends in the
redirect, the product gets the number at the head of the reply as `precio_sugerido` and
the history gets an entry. -/
theorem calcularPrecio_acepta_texto_tras_numero :
    esLiteralCompleto (trim "2.75 euros").toList = false ∧
    calcularPrecio plataformaLatin1 (fun _ => .contenido "2.75 euros") 7
        false false false bdCola 1 =
      ⟨⟨[{ cola with precio_sugerido := .numero (.decimal false 275 (-2)) }],
          [⟨1, 1, 7, .nulo, .numero (.decimal false 275 (-2))⟩], 1⟩,
        .redirect "/producto/1",
        [.selectProducto 1, .insertHistorico 1 .nulo (.decimal false 275 (-2)),
          .updatePrecioSugerido (.decimal false 275 (-2)) 1]⟩ ∧
    esLiteralCompleto (trim "3.50 because the margin is 40%").toList = false ∧
    (calcularPrecio plataformaLatin1 (fun _ => .contenido "3.50 because the margin is 40%") 7
        false false false bdCola 1).bd =
      ⟨[{ cola with precio_sugerido := .numero (.decimal false 350 (-2)) }],
        [⟨1, 1, 7, .nulo, .numero (.decimal false 350 (-2))⟩], 1⟩ := by
  decide

/-! ## C5, C6: the search -/

theorem length16_empty : length16 "" = 0 := rfl

theorem buscar_termino_largo (P : Plataforma) (errDb : Bool) (bd : BD) (t : String)
    (h : 2 ≤ length16 t) :
    (buscar P errDb bd (some t)).sentencias = [.selectBusqueda (normalizar P t)] ∧
    (buscar P errDb bd (some t)).respuesta ≠
      .jsonError 400 "Término de búsqueda demasiado corto" := by
  have hc : ¬ (t = "" ∨ length16 t < 2) := by
    rintro (rfl | h2)
    · rw [length16_empty] at h; exact absurd h (by decide)
    · exact absurd h (Nat.not_le_of_lt h2)
  simp only [buscar, if_neg hc]
  cases errDb <;> simp

/-- C5, as the code has it. The search is refused as too short, with no statement
submitted, exactly when the term is absent or has fewer than two UTF-16 code units as
received (nothing is trimmed); a term of two or more code units is searched for. -/
theorem buscar_termino_corto (P : Plataforma) (errDb : Bool) (bd : BD) (q : Option String) :
    ((buscar P errDb bd q).respuesta = .jsonError 400 "Término de búsqueda demasiado corto" ↔
      (q = none ∨ ∃ t, q = some t ∧ length16 t < 2)) ∧
    ((q = none ∨ ∃ t, q = some t ∧ length16 t < 2) →
      buscar P errDb bd q = ⟨bd, .jsonError 400 "Término de búsqueda demasiado corto", []⟩) ∧
    (∀ t, q = some t → 2 ≤ length16 t →
      (buscar P errDb bd q).sentencias = [.selectBusqueda (normalizar P t)]) := by
  cases q with
  | none => simp [buscar]
  | some t =>
    by_cases h : length16 t < 2
    · have hc : t = "" ∨ length16 t < 2 := Or.inr h
      simp [buscar, hc, h]
    · have h2 := buscar_termino_largo P errDb bd t (Nat.le_of_not_lt h)
      refine ⟨⟨fun e => absurd e h2.2, ?_⟩, ?_, ?_⟩
      · rintro (e | ⟨u, e, hu⟩)
        · cases e
        · cases e; exact absurd hu h
      · rintro (e | ⟨u, e, hu⟩)
        · cases e
        · cases e; exact absurd hu h
      · intro u e _
        cases e
        exact h2.1

/-- C5 at the terms of the specification: absent, empty and "a" are refused, and no
statement is submitted. -/
theorem buscar_termino_corto_ejemplo :
    buscar plataformaLatin1 false bdCola none
      = ⟨bdCola, .jsonError 400 "Término de búsqueda demasiado corto", []⟩ ∧
    buscar plataformaLatin1 false bdCola (some "")
      = ⟨bdCola, .jsonError 400 "Término de búsqueda demasiado corto", []⟩ ∧
    buscar plataformaLatin1 false bdCola (some "a")
      = ⟨bdCola, .jsonError 400 "Término de búsqueda demasiado corto", []⟩ :=
  ⟨(buscar_termino_corto plataformaLatin1 false bdCola none).2.1 (Or.inl rfl),
   (buscar_termino_corto plataformaLatin1 false bdCola (some "")).2.1
      (Or.inr ⟨"", rfl, by decide⟩),
   (buscar_termino_corto plataformaLatin1 false bdCola (some "a")).2.1
      (Or.inr ⟨"a", rfl, by decide⟩)⟩

/-- C5 refuted as stated: the terms " a" and "  " have fewer than two characters once
trimmed, and the search runs for each: the query is submitted with the term as received
and the answer is the list of rows, not the 400 response. -/
theorem buscar_no_recorta_el_termino :
    length16 (trim " a") < 2 ∧ length16 (trim "  ") < 2 ∧
    buscar plataformaLatin1 false bdCola (some " a")
      = ⟨bdCola, .json [], [.selectBusqueda " a"]⟩ ∧
    buscar plataformaLatin1 false bdCola (some "  ")
      = ⟨bdCola, .json [], [.selectBusqueda "  "]⟩ ∧
    (∀ (P : Plataforma) (errDb : Bool) (bd : BD),
      (buscar P errDb bd (some " a")).sentencias = [.selectBusqueda (normalizar P " a")] ∧
      (buscar P errDb bd (some "  ")).sentencias = [.selectBusqueda (normalizar P "  ")]) := by
  refine ⟨by decide, by decide, by decide, by decide, ?_⟩
  intro P errDb bd
  exact ⟨(buscar_termino_largo P errDb bd " a" (by decide)).1,
    (buscar_termino_largo P errDb bd "  " (by decide)).1⟩

theorem patternCompare_porcentaje (s : List Char) : patternCompare ['%'] s = true := by
  simp [patternCompare]

theorem patternCompare_sin_comodines (n : List Char) (hn : ∀ c ∈ n, c ≠ '%' ∧ c ≠ '_')
    (s : List Char) : patternCompare (n ++ ['%']) s = empiezaPor n s := by
  induction n generalizing s with
  | nil => simpa [empiezaPor] using patternCompare_porcentaje s
  | cons c p ih =>
    have hc := hn c (List.mem_cons_self c p)
    have hp : ∀ d ∈ p, d ≠ '%' ∧ d ≠ '_' := fun d hd => hn d (List.mem_cons_of_mem c hd)
    cases s with
    | nil => simp [patternCompare, empiezaPor, hc.1]
    | cons d t => simp [patternCompare, empiezaPor, hc.1, hc.2, ih hp t]

theorem cadenaC_sin_nul (n : List Char) (hn : ∀ c ∈ n, c ≠ Char.ofNat 0) : cadenaC n = n := by
  unfold cadenaC
  rw [List.takeWhile_eq_self_iff]
  intro c hc
  simpa using hn c hc

set_option maxRecDepth 100000 in
theorem toLower_nul : ∀ n, n < 128 → Char.ofNat n ≠ Char.ofNat 0 →
    (Char.ofNat n).toLower ≠ (Char.ofNat 0).toLower := by
  decide

theorem igualLike_nul (c : Char) (hc : c ≠ Char.ofNat 0) :
    igualLike c (Char.ofNat 0) = false := by
  unfold igualLike
  by_cases h : c.toNat < 128
  · have h2 := toLower_nul c.toNat h (by rw [Char.ofNat_toNat]; exact hc)
    rw [Char.ofNat_toNat] at h2
    have h3 : c.toLower ≠ Char.ofNat 0 := fun e => h2 (e.trans (by decide))
    simp [hc, h3]
  · simp [hc, h]

theorem empiezaPor_cadenaC (n : List Char) (hn : ∀ c ∈ n, c ≠ Char.ofNat 0) (s : List Char) :
    empiezaPor n (cadenaC s) = empiezaPor n s := by
  induction n generalizing s with
  | nil => simp [empiezaPor]
  | cons c p ih =>
    have hc := hn c (List.mem_cons_self c p)
    have hp : ∀ d ∈ p, d ≠ Char.ofNat 0 := fun d hd => hn d (List.mem_cons_of_mem c hd)
    cases s with
    | nil => rfl
    | cons d t =>
      by_cases hd : d = Char.ofNat 0
      · subst hd
        have e : cadenaC (Char.ofNat 0 :: t) = [] := by simp [cadenaC]
        rw [e]
        simp [empiezaPor, igualLike_nul c hc]
      · have e : cadenaC (d :: t) = d :: cadenaC t := by simp [cadenaC, hd]
        rw [e]
        simp only [empiezaPor, ih hp t]

theorem like_sin_comodines (n : List Char)
    (hn : ∀ c ∈ n, c ≠ '%' ∧ c ≠ '_' ∧ c ≠ Char.ofNat 0) (s : List Char) :
    like (n ++ ['%']) s = empiezaPor n s := by
  have h0 : ∀ c ∈ n, c ≠ Char.ofNat 0 := fun c hc => (hn c hc).2.2
  have h1 : cadenaC (n ++ ['%']) = n ++ ['%'] := by
    apply cadenaC_sin_nul
    intro c hc
    rcases List.mem_append.1 hc with h | h
    · exact h0 c h
    · rw [List.mem_singleton.1 h]; decide
  unfold like
  rw [h1, patternCompare_sin_comodines n (fun c hc => ⟨(hn c hc).1, (hn c hc).2.1⟩),
    empiezaPor_cadenaC n h0]

set_option maxRecDepth 100000 in
theorem plegado_ascii : ∀ n, n < 128 →
    (((descomponerLatin1 (Char.ofNat n)).filter
        fun c => ¬ (0x300 ≤ c.toNat ∧ c.toNat ≤ 0x36F)).map Char.toLower =
      (replaceSQL 'í' 'i' (replaceSQL 'é' 'e' (replaceSQL 'á' 'a' [Char.ofNat n]))).map
        Char.toLower) ∧
    ∀ d ∈ (descomponerLatin1 (Char.ofNat n)).filter
        (fun c => ¬ (0x300 ≤ c.toNat ∧ c.toNat ≤ 0x36F)), d.toNat < 128 := by
  decide

theorem plegado_caracter (c : Char) (hc : c.toNat < 128 ∨ c = 'á' ∨ c = 'é' ∨ c = 'í') :
    (((descomponerLatin1 c).filter
        fun c => ¬ (0x300 ≤ c.toNat ∧ c.toNat ≤ 0x36F)).map Char.toLower =
      (replaceSQL 'í' 'i' (replaceSQL 'é' 'e' (replaceSQL 'á' 'a' [c]))).map Char.toLower) ∧
    (∀ d ∈ (descomponerLatin1 c).filter
        (fun c => ¬ (0x300 ≤ c.toNat ∧ c.toNat ≤ 0x36F)), d.toNat < 128) ∧
    c.toNat < 256 := by
  rcases hc with h | rfl | rfl | rfl
  · have := plegado_ascii c.toNat h
    rw [Char.ofNat_toNat] at this
    exact ⟨this.1, this.2, Nat.lt_trans h (by decide)⟩
  · decide
  · decide
  · decide

theorem plegado_lista (l : List Char)
    (hl : ∀ c ∈ l, c.toNat < 128 ∨ c = 'á' ∨ c = 'é' ∨ c = 'í') :
    (((l.flatMap descomponerLatin1).filter
        fun c => ¬ (0x300 ≤ c.toNat ∧ c.toNat ≤ 0x36F)).map Char.toLower =
      (replaceSQL 'í' 'i' (replaceSQL 'é' 'e' (replaceSQL 'á' 'a' l))).map Char.toLower) ∧
    (∀ d ∈ (l.flatMap descomponerLatin1).filter
        (fun c => ¬ (0x300 ≤ c.toNat ∧ c.toNat ≤ 0x36F)), d.toNat < 128) ∧
    ∀ c ∈ l, c.toNat < 256 := by
  induction l with
  | nil => exact ⟨rfl, fun _ h => absurd h (List.not_mem_nil _), fun _ h => absurd h (List.not_mem_nil _)⟩
  | cons c t ih =>
    have hc := plegado_caracter c (hl c (List.mem_cons_self c t))
    have ht := ih fun d hd => hl d (List.mem_cons_of_mem c hd)
    refine ⟨?_, ?_, ?_⟩
    · have e : (replaceSQL 'í' 'i' (replaceSQL 'é' 'e' (replaceSQL 'á' 'a' (c :: t)))) =
          replaceSQL 'í' 'i' (replaceSQL 'é' 'e' (replaceSQL 'á' 'a' [c])) ++
            replaceSQL 'í' 'i' (replaceSQL 'é' 'e' (replaceSQL 'á' 'a' t)) := rfl
      rw [e, List.flatMap_cons, List.filter_append, List.map_append, List.map_append,
        hc.1, ht.1]
    · intro d hd
      rw [List.flatMap_cons, List.filter_append, List.mem_append] at hd
      rcases hd with hd | hd
      · exact hc.2.1 d hd
      · exact ht.2.1 d hd
    · intro d hd
      rcases List.mem_cons.1 hd with rfl | hd
      · exact hc.2.2
      · exact ht.2.2 d hd

theorem normalizar_eq_nombrePlegado (P : Plataforma) (s : String)
    (hs : ∀ c ∈ s.toList, c.toNat < 128 ∨ c = 'á' ∨ c = 'é' ∨ c = 'í') :
    (normalizar P s).toList = nombrePlegado s := by
  have h := plegado_lista s.toList hs
  unfold normalizar
  rw [P.nfd_latin1 s h.2.2,
    P.lower_ascii (quitarMarcas ⟨s.toList.flatMap descomponerLatin1⟩) h.2.1]
  exact h.1

theorem nombreSimple_iff (s : String) (h : nombreSimple s = true) :
    ∀ c ∈ s.toList, c.toNat < 128 ∨ c = 'á' ∨ c = 'é' ∨ c = 'í' := by
  intro c hc
  have := List.all_eq_true.1 h c hc
  simpa [or_assoc] using this

/-- C6, as the code has it. For a term of two or more code units whose normalised form
(NFD, combining marks removed, `toLowerCase`) has no `%`, no `_` and no U+0000, the search
answers with stored products only, and among the products whose name is written with
ASCII characters and `á`, `é`, `í` it answers with exactly those whose name, folded as
the term is folded, starts with the normalised term, ASCII letters compared without
regard to case. On such names the folding of the query (`á`, `é`, `í` replaced, ASCII
letters lowered) and the normalisation of the term give the same text. -/
theorem buscar_por_inicio_del_nombre (P : Plataforma) (bd : BD) (termino : String)
    (hlen : 2 ≤ length16 termino)
    (hcom : ∀ c ∈ (normalizar P termino).toList, c ≠ '%' ∧ c ≠ '_' ∧ c ≠ Char.ofNat 0) :
    (∃ ps, buscar P false bd (some termino) =
        ⟨bd, .json ps, [.selectBusqueda (normalizar P termino)]⟩ ∧
      (∀ p ∈ ps, p ∈ bd.productos) ∧
      (ps.filter fun p => nombreSimple p.nombre).Perm
        ((bd.productos.filter fun p => nombreSimple p.nombre).filter fun p =>
          empiezaPor (normalizar P termino).toList (normalizar P p.nombre).toList)) ∧
    (∀ s : String, nombreSimple s = true → (normalizar P s).toList = nombrePlegado s) := by
  have hfold : ∀ s : String, nombreSimple s = true → (normalizar P s).toList = nombrePlegado s :=
    fun s hs => normalizar_eq_nombrePlegado P s (nombreSimple_iff s hs)
  refine ⟨?_, hfold⟩
  have hc : ¬ (termino = "" ∨ length16 termino < 2) := by
    rintro (rfl | h2)
    · rw [length16_empty] at hlen; exact absurd hlen (by decide)
    · exact absurd hlen (Nat.not_le_of_lt h2)
  have hperm : (filasBusqueda bd (normalizar P termino)).Perm
      (bd.productos.filter fun p =>
        like ((normalizar P termino).toList ++ ['%']) (nombrePlegado p.nombre)) :=
    List.perm_insertionSort _ _
  refine ⟨filasBusqueda bd (normalizar P termino), by simp only [buscar, if_neg hc]; rfl,
    ?_, ?_⟩
  · intro p hp
    exact (List.mem_filter.1 (hperm.mem_iff.1 hp)).1
  · refine (hperm.filter _).trans (List.Perm.of_eq ?_)
    rw [List.filter_filter, List.filter_filter]
    apply List.filter_congr
    intro p _
    cases hs : nombreSimple p.nombre with
    | false => simp
    | true =>
      rw [hfold p.nombre hs, like_sin_comodines _ hcom]
      simp

/-- C6 at an example: over Cola, Café molido and Óleo, the search for "CAFÉ" answers, among
the products with a name of ASCII characters and `á`, `é`, `í`, with Café molido; and
the two foldings give the same text for "él día". -/
theorem buscar_por_inicio_del_nombre_ejemplo :
    (∃ ps, buscar plataformaLatin1 false ⟨[cola, cafe, oleo], [], 0⟩ (some "CAFÉ") =
        ⟨⟨[cola, cafe, oleo], [], 0⟩, .json ps, [.selectBusqueda "cafe"]⟩ ∧
      (∀ p ∈ ps, p ∈ [cola, cafe, oleo]) ∧
      (ps.filter fun p => nombreSimple p.nombre).Perm [cafe]) ∧
    (normalizar plataformaLatin1 "él día").toList = nombrePlegado "él día" :=
  have h := buscar_por_inicio_del_nombre plataformaLatin1 ⟨[cola, cafe, oleo], [], 0⟩ "CAFÉ"
    (by decide) (by decide)
  ⟨h.1, h.2 "él día" (by decide)⟩

theorem normalizar_latin1 (P : Plataforma) (s : String)
    (h1 : ∀ c ∈ s.toList, c.toNat < 256)
    (h2 : ∀ c ∈ (quitarMarcas ⟨s.toList.flatMap descomponerLatin1⟩).toList, c.toNat < 128) :
    normalizar P s = normalizar plataformaLatin1 s := by
  unfold normalizar
  rw [P.nfd_latin1 s h1, P.lower_ascii _ h2]
  rfl

theorem buscar_congr (P Q : Plataforma) (errDb : Bool) (bd : BD) (t : String)
    (h : normalizar P t = normalizar Q t) :
    buscar P errDb bd (some t) = buscar Q errDb bd (some t) := by
  simp only [buscar, h]

/-- C6 refuted as stated. Over the store with Cola and Óleo, on every platform: the
search for "c_" answers with Cola, whose folded name "cola" does not start with "c_" (the
`_` of the term matched the `o`); the search for "cola" followed by U+0000 answers with
Cola, whose folded name does not start with that term (the pattern ends at the U+0000);
and the search for "ol" answers with nothing, although the name "Óleo" folded as the term
is folded is "oleo": the query leaves `Ó` as it is, so the two foldings differ. -/
theorem buscar_comodin_y_plegado_distinto :
    (∀ P : Plataforma, buscar P false ⟨[cola, oleo], [], 0⟩ (some "c_") =
      ⟨⟨[cola, oleo], [], 0⟩, .json [cola], [.selectBusqueda "c_"]⟩) ∧
    ¬ ("c_".toList <+: nombrePlegado cola.nombre) ∧
    (∀ P : Plataforma, ¬ ("c_".toList <+: (normalizar P cola.nombre).toList)) ∧
    (∀ P : Plataforma, buscar P false ⟨[cola, oleo], [], 0⟩ (some "cola\x00") =
      ⟨⟨[cola, oleo], [], 0⟩, .json [cola], [.selectBusqueda "cola\x00"]⟩) ∧
    ¬ ("cola\x00".toList <+: nombrePlegado cola.nombre) ∧
    (∀ P : Plataforma, buscar P false ⟨[cola, oleo], [], 0⟩ (some "ol") =
      ⟨⟨[cola, oleo], [], 0⟩, .json [], [.selectBusqueda "ol"]⟩) ∧
    (∀ P : Plataforma, normalizar P oleo.nombre = "oleo") ∧
    nombrePlegado oleo.nombre = ['Ó', 'l', 'e', 'o'] := by
  refine ⟨?_, by decide, ?_, ?_, by decide, ?_, ?_, by decide⟩
  · intro P
    rw [buscar_congr P plataformaLatin1 false _ "c_"
      (normalizar_latin1 P "c_" (by decide) (by decide))]
    decide
  · intro P
    rw [show cola.nombre = "Cola" from rfl,
      normalizar_latin1 P "Cola" (by decide) (by decide)]
    decide
  · intro P
    rw [buscar_congr P plataformaLatin1 false _ "cola\x00"
      (normalizar_latin1 P "cola\x00" (by decide) (by decide))]
    decide
  · intro P
    rw [buscar_congr P plataformaLatin1 false _ "ol"
      (normalizar_latin1 P "ol" (by decide) (by decide))]
    decide
  · intro P
    rw [show oleo.nombre = "Óleo" from rfl,
      normalizar_latin1 P "Óleo" (by decide) (by decide)]
    decide

/-! ## C7, C8: the edit form -/

theorem actualizarFilas_eq (P : Plataforma) (body : Formulario) (foto : Option String)
    (id : Nat) (f : Producto → Producto) (hf : ∀ p, filaEditada P body foto p = some (f p))
    (ps : List Producto) :
    actualizarFilas P body foto id ps =
      some (ps.map fun p => if p.id = id then f p else p) := by
  induction ps with
  | nil => rfl
  | cons p ps ih =>
    by_cases h : p.id = id
    · simp [actualizarFilas, h, hf p, ih]
    · simp [actualizarFilas, h, ih]

theorem actualizarFilas_sin_fila (P : Plataforma) (body : Formulario) (foto : Option String)
    (id : Nat) (ps : List Producto) (h : ps.find? (fun p => p.id = id) = none) :
    actualizarFilas P body foto id ps = some ps := by
  induction ps with
  | nil => rfl
  | cons p ps ih =>
    rw [List.find?_cons] at h
    by_cases hp : p.id = id
    · simp [hp] at h
    · simp only [hp, decide_False] at h
      simp [actualizarFilas, hp, ih h]

/-- C7, as the code has it. When product `id` is stored and the submitted fields pass the
constraints of the table (name, brand, purchase price, quality and urgency present;
quality, urgency and a present category within their lists) and the two storage calls
succeed, the request ends in the redirect to the product; afterwards product `id` has
the submitted category, name, brand, quality and urgency, the submitted prices as the
REAL column keeps them (an absent or empty current price is NULL), the path of the
uploaded photo or else the photo it had, and its id and `precio_sugerido` as before;
every other product and the history are as before. -/
theorem editarProducto_guarda_campos (P : Plataforma) (bd : BD) (id : Nat) (body : Formulario)
    (file : Option String) (anterior : Producto)
    (nombre marca precio_compra calidad urgencia : String)
    (hprod : obtener bd id = some anterior)
    (hn : body.nombre = some nombre) (hm : body.marca = some marca)
    (hpc : body.precio_compra = some precio_compra)
    (hcal : body.calidad = some calidad) (hurg : body.urgencia = some urgencia)
    (hcat : body.categoria = none ∨ body.categoria ∈
      [some "Fruta/Verdura", some "Bebida", some "Alimento", some "Otros"])
    (hcal2 : calidad ∈ ["alta", "media", "baja"])
    (hurg2 : urgencia ∈ ["muy alta", "media", "baja"]) :
    (editarProducto P false false bd id body file).respuesta
        = .redirect ("/producto/" ++ toString id) ∧
    obtener (editarProducto P false false bd id body file).bd id =
      some { id := id
             categoria := body.categoria
             nombre := nombre
             marca := marca
             precio_compra := P.afinidadReal precio_compra
             precio_actual :=
               match body.precio_actual with
               | none => .nulo
               | some t => if t = "" then .nulo else P.afinidadReal t
             calidad := calidad
             urgencia := urgencia
             foto :=
               match file with
               | some filename => some ("/uploads/" ++ filename)
               | none => anterior.foto
             precio_sugerido := anterior.precio_sugerido } ∧
    (∀ j, j ≠ id → obtener (editarProducto P false false bd id body file).bd j = obtener bd j) ∧
    (editarProducto P false false bd id body file).bd.historico_precios
        = bd.historico_precios := by
  obtain ⟨foto, hfoto, hfoto2⟩ : ∃ foto : Option String,
      (match file, obtener bd id with
        | some filename, _ => some (some ("/uploads/" ++ filename))
        | none, some r => some r.foto
        | none, none => (none : Option (Option String))) = some foto ∧
      foto = (match file with
        | some filename => some ("/uploads/" ++ filename)
        | none => anterior.foto) := by
    cases file with
    | none => exact ⟨anterior.foto, by rw [hprod], rfl⟩
    | some filename => exact ⟨_, rfl, rfl⟩
  let f : Producto → Producto := fun p =>
    { id := p.id, categoria := body.categoria, nombre := nombre, marca := marca
      precio_compra := P.afinidadReal precio_compra
      precio_actual :=
        match body.precio_actual with
        | none => .nulo
        | some t => if t = "" then .nulo else P.afinidadReal t
      calidad := calidad, urgencia := urgencia, foto := foto
      precio_sugerido := p.precio_sugerido }
  have hid : ∀ p, (f p).id = p.id := fun _ => rfl
  have hf : ∀ p, filaEditada P body foto p = some (f p) := by
    intro p
    unfold filaEditada
    rw [hn, hm, hpc, hcal, hurg]
    exact if_pos ⟨hcat, hcal2, hurg2⟩
  have hr : editarProducto P false false bd id body file =
      ⟨{ bd with productos := bd.productos.map fun p => if p.id = id then f p else p },
        .redirect ("/producto/" ++ toString id), [.selectFoto id, .updateProducto id]⟩ := by
    unfold editarProducto
    simp only [Bool.false_eq_true, if_false, hfoto, actualizarFilas_eq P body foto id f hf]
  rw [hr]
  refine ⟨rfl, ?_, ?_, rfl⟩
  · show List.find? _ (List.map _ bd.productos) = _
    rw [find_map_mismo f hid id bd.productos]
    show Option.map f (obtener bd id) = _
    rw [hprod, Option.map_some', ← obtener_id bd id anterior hprod, ← hfoto2]
  · intro j hj
    exact find_map_otro f hid id j hj bd.productos

/-- C7 at an example: Cola is edited, without a photo and with an empty current price. -/
theorem editarProducto_guarda_campos_ejemplo :
    obtener (editarProducto plataformaLatin1 false false bdCola 1
        ⟨some "Cola Zero", some "Acme", some "1.10", some "", some "alta", some "baja",
          some "Bebida"⟩ none).bd 1 =
      some { id := 1, categoria := some "Bebida", nombre := "Cola Zero", marca := "Acme"
             precio_compra := .numero (.decimal false 110 (-2)), precio_actual := .nulo
             calidad := "alta", urgencia := "baja", foto := none, precio_sugerido := .nulo } :=
  (editarProducto_guarda_campos plataformaLatin1 bdCola 1
    ⟨some "Cola Zero", some "Acme", some "1.10", some "", some "alta", some "baja",
      some "Bebida"⟩ none cola "Cola Zero" "Acme" "1.10" "alta" "baja"
    (by decide) rfl rfl rfl rfl rfl (by decide) (by decide) (by decide)).2.1

/-- C7 refuted as stated: Cola is edited with the quality "excelente", which the CHECK of
the column refuses, and then with no name, which NOT NULL refuses. The UPDATE fails, the
request ends in the 500 response, and the product read afterwards has the quality and
the name it had, not the submitted ones. -/
theorem editarProducto_rechaza_campos :
    editarProducto plataformaLatin1 false false bdCola 1
        ⟨some "Cola", some "Acme", some "1.00", some "1.50", some "excelente", some "baja",
          some "Bebida"⟩ none =
      ⟨bdCola, .send 500 "Error al actualizar producto.",
        [.selectFoto 1, .updateProducto 1]⟩ ∧
    (obtener bdCola 1).map (fun p => p.calidad) = some "media" ∧
    editarProducto plataformaLatin1 false false bdCola 1
        ⟨none, some "Acme", some "1.00", some "1.50", some "alta", some "baja",
          some "Bebida"⟩ none =
      ⟨bdCola, .send 500 "Error al actualizar producto.",
        [.selectFoto 1, .updateProducto 1]⟩ := by
  decide

/-- C8, on the code. For an id that no product has, the edit request without an upload
ends in the uncaught exception of reading `foto` of a missing row, and with an upload it
ends in the redirect to the product, as a successful edit does: neither is a
not-found response. The store is as before in both. -/
theorem editarProducto_id_ausente (P : Plataforma) (errUpdate : Bool) (bd : BD) (id : Nat)
    (body : Formulario) (filename : String) (h : obtener bd id = none) :
    editarProducto P false errUpdate bd id body none = ⟨bd, .typeError, [.selectFoto id]⟩ ∧
    editarProducto P false false bd id body (some filename) =
      ⟨bd, .redirect ("/producto/" ++ toString id), [.selectFoto id, .updateProducto id]⟩ := by
  constructor
  · simp [editarProducto, h]
  · have h2 := actualizarFilas_sin_fila P body (some ("/uploads/" ++ filename)) id
      bd.productos h
    simp [editarProducto, h2]

/-- C8 at the failing input: the store holds Cola alone (id 1) and the edit form is
posted to id 2. -/
theorem editarProducto_id_ausente_ejemplo :
    editarProducto plataformaLatin1 false false bdCola 2
        ⟨some "Cola", some "Acme", some "1.00", none, some "alta", some "baja", some "Bebida"⟩
        none = ⟨bdCola, .typeError, [.selectFoto 2]⟩ ∧
    editarProducto plataformaLatin1 false false bdCola 2
        ⟨some "Cola", some "Acme", some "1.00", none, some "alta", some "baja", some "Bebida"⟩
        (some "1700000000000-cola.png") =
      ⟨bdCola, .redirect "/producto/2", [.selectFoto 2, .updateProducto 2]⟩ :=
  editarProducto_id_ausente plataformaLatin1 false bdCola 2
    ⟨some "Cola", some "Acme", some "1.00", none, some "alta", some "baja", some "Bebida"⟩
    "1700000000000-cola.png" (by decide)

/-! ## C9: the deletion workflow -/

theorem find_filter_id (id : Nat) (ps : List Producto) :
    (ps.filter fun p => ¬ p.id = id).find? (fun p => p.id = id) = none := by
  rw [List.find?_eq_none]
  intro p hp
  have := (List.mem_filter.1 hp).2
  simpa using this

theorem listar_filter_id (id : Nat) (hs : List Historico) :
    ((hs.filter fun h => ¬ h.producto_id = id).filter fun h => h.producto_id = id) = [] := by
  rw [List.filter_eq_nil_iff]
  intro h hh
  have := (List.mem_filter.1 hh).2
  simpa using this

/-- C9. When the deletion workflow ends in its success redirect, product `id` is not
found afterwards (the product page answers 404) and its history is empty; the DELETE of
the history was submitted before the DELETE of the product. When the DELETE of the
history fails, the DELETE of the product is not submitted and the database is as it was. -/
theorem eliminarProducto_correcto (errHistorico errProducto : Bool) (bd : BD) (id : Nat) :
    ((eliminarProducto errHistorico errProducto bd id).respuesta
        = .redirect "/?success=Producto eliminado correctamente" →
      obtener (eliminarProducto errHistorico errProducto bd id).bd id = none ∧
      (∀ e1 e2, (verProducto e1 e2 (eliminarProducto errHistorico errProducto bd id).bd
          id).respuesta = .send 404 "Producto no encontrado") ∧
      listarHistorico (eliminarProducto errHistorico errProducto bd id).bd id = [] ∧
      (eliminarProducto errHistorico errProducto bd id).sentencias
        = [.deleteHistorico id, .deleteProducto id]) ∧
    (errHistorico = true →
      (eliminarProducto errHistorico errProducto bd id).bd = bd ∧
      (eliminarProducto errHistorico errProducto bd id).sentencias = [.deleteHistorico id]) := by
  cases errHistorico
  · cases errProducto
    · refine ⟨fun _ => ?_, fun h => absurd h (by decide)⟩
      have h1 : obtener (eliminarProducto false false bd id).bd id = none :=
        find_filter_id id bd.productos
      refine ⟨h1, ?_, ?_, rfl⟩
      · intro e1 e2
        cases e1 <;> simp [verProducto, h1]
      · show List.insertionSort _ (List.filter _ (List.filter _ bd.historico_precios)) = []
        rw [listar_filter_id]; rfl
    · refine ⟨fun h => ?_, fun h => absurd h (by decide)⟩
      simp only [eliminarProducto, Bool.false_eq_true, if_false, if_true] at h
      exact absurd h (by decide)
  · refine ⟨fun h => ?_, fun _ => ⟨rfl, rfl⟩⟩
    simp only [eliminarProducto, if_true] at h
    exact absurd h (by decide)

/-- C9 at an example: Cola with one entry of history is deleted. -/
theorem eliminarProducto_correcto_ejemplo :
    obtener (eliminarProducto false false
      ⟨[cola], [⟨1, 1, 7, .nulo, .numero (.decimal false 145 (-2))⟩], 1⟩ 1).bd 1 = none ∧
    listarHistorico (eliminarProducto false false
      ⟨[cola], [⟨1, 1, 7, .nulo, .numero (.decimal false 145 (-2))⟩], 1⟩ 1).bd 1 = [] :=
  have h := (eliminarProducto_correcto false false
    ⟨[cola], [⟨1, 1, 7, .nulo, .numero (.decimal false 145 (-2))⟩], 1⟩ 1).1 (by decide)
  ⟨h.1, h.2.2.1⟩

/-! ## C10: the prompt -/

set_option maxRecDepth 100000 in
theorem factoresAdicionales_lineas (p : Producto) :
    ¬ (cabeceraFactores.toList <:+: (factoresAdicionales p).toList) ∧
    (lineaUrgencia.toList <:+: (factoresAdicionales p).toList ↔ p.urgencia = "muy alta") ∧
    (lineaCalidadAlta.toList <:+: (factoresAdicionales p).toList ↔ p.calidad = "alta") ∧
    (lineaCalidadBaja.toList <:+: (factoresAdicionales p).toList ↔ p.calidad = "baja") := by
  by_cases hu : p.urgencia = "muy alta" <;> by_cases ha : p.calidad = "alta" <;>
    by_cases hb : p.calidad = "baja" <;>
    simp only [factoresAdicionales, hu, ha, hb, if_true, if_false] <;> decide

/-- C10. The prompt is the same for two products with the same category, quality,
urgency, name, brand and purchase price. It is the data of the product, the header of the
additional factors and the text after it; the header does not occur again in that text,
and that text contains the line of the urgency discount exactly when the urgency is
"muy alta", the line of the quality surcharge exactly when the quality is "alta", and the
line of the reduction for a low quality exactly when the quality is "baja". -/
theorem prompt_plantilla (P : Plataforma) (p q : Producto) :
    (p.categoria = q.categoria → p.calidad = q.calidad → p.urgencia = q.urgencia →
      p.nombre = q.nombre → p.marca = q.marca → p.precio_compra = q.precio_compra →
      prompt P p = prompt P q) ∧
    prompt P p = datosDelProducto P p ++ cabeceraFactores ++ factoresAdicionales p ∧
    ¬ (cabeceraFactores.toList <:+: (factoresAdicionales p).toList) ∧
    (lineaUrgencia.toList <:+: (factoresAdicionales p).toList ↔ p.urgencia = "muy alta") ∧
    (lineaCalidadAlta.toList <:+: (factoresAdicionales p).toList ↔ p.calidad = "alta") ∧
    (lineaCalidadBaja.toList <:+: (factoresAdicionales p).toList ↔ p.calidad = "baja") := by
  refine ⟨?_, rfl, factoresAdicionales_lineas p⟩
  intro h1 h2 h3 h4 h5 h6
  simp only [prompt, datosDelProducto, factoresAdicionales, h1, h2, h3, h4, h5, h6]

/-- C10 at an example: Cola and a copy of it with another id, current price, photo and
suggestion have the same prompt; Cola is of medium quality and low urgency, and the text
after the header has none of the three lines. -/
theorem prompt_plantilla_ejemplo :
    prompt plataformaLatin1 cola =
      prompt plataformaLatin1
        { cola with id := 9, precio_actual := .numero (.decimal false 150 (-2))
                    foto := some "/uploads/cola.png"
                    precio_sugerido := .numero (.decimal false 145 (-2)) } ∧
    ¬ (lineaUrgencia.toList <:+: (factoresAdicionales cola).toList) ∧
    ¬ (lineaCalidadAlta.toList <:+: (factoresAdicionales cola).toList) ∧
    ¬ (lineaCalidadBaja.toList <:+: (factoresAdicionales cola).toList) :=
  have h := prompt_plantilla plataformaLatin1 cola
    { cola with id := 9, precio_actual := .numero (.decimal false 150 (-2))
                foto := some "/uploads/cola.png"
                precio_sugerido := .numero (.decimal false 145 (-2)) }
  ⟨h.1 rfl rfl rfl rfl rfl rfl,
   fun hc => absurd (h.2.2.2.1.1 hc) (by decide),
   fun hc => absurd (h.2.2.2.2.1.1 hc) (by decide),
   fun hc => absurd (h.2.2.2.2.2.1 hc) (by decide)⟩

end PriceStockChecker
